import Mathlib

/-!
Verification of the TfL Local Transport integration against its
specification.  The definitions below are a shallow embedding of
`custom_components/tfl_local_transport/api.py` and `sensor.py`:
HTTP effects are passed in as explicit outcomes, Python dictionaries are
association lists, and Python exceptions are `Except.error`.
-/

/-- JSON values as produced by `response.json()`.  Objects keep insertion
order, as Python dicts do; keys are unique in practice.  Numbers are
modelled as integers — none of the verified behaviour depends on
fractional values. -/
inductive Json where
  | null : Json
  | bool : Bool → Json
  | num : Int → Json
  | str : String → Json
  | arr : List Json → Json
  | obj : List (String × Json) → Json

/-- Python truthiness (`if result:`) of a JSON value: `None`, `False`, `0`,
`""`, `[]` and `{}` are falsy, everything else truthy. -/
def Json.truthy : Json → Bool
  | .null => false
  | .bool b => b
  | .num n => n != 0
  | .str s => s != ""
  | .arr xs => !xs.isEmpty
  | .obj fs => !fs.isEmpty

/-- Python `d.get(k)`: the value stored under the first occurrence of `k`,
if any. -/
def dictGet (fs : List (String × Json)) (k : String) : Option Json :=
  match fs with
  | [] => none
  | (k2, v) :: rest => if k2 = k then some v else dictGet rest k

/-- Python `d.get(k, dflt)`. -/
def dictGetD (fs : List (String × Json)) (k : String) (dflt : Json) : Json :=
  (dictGet fs k).getD dflt

/-- Python truthiness of an optional string field such as `self.app_key`
(`if self.app_key:`): `None` and the empty string are falsy. -/
def optStrTruthy : Option String → Bool
  | none => false
  | some s => s != ""

/-- The outcome of the single `session.get(...)` performed by one provider
client method, as observed inside its `try` block: either some exception
was raised during the request (`fail`, e.g. a transport error or timeout),
or a response arrived carrying a status code and a body whose JSON parse
may itself fail (`response.json()` raising is the `Except.error` case). -/
inductive HttpResult where
  | fail (e : String)
  | resp (status : Nat) (body : Except String Json)

/-- Does `needle` start `haystack`? (helper for Python's `in` on strings). -/
def listStartsWith : List Char → List Char → Bool
  | [], _ => true
  | _ :: _, [] => false
  | a :: as, b :: bs => a = b && listStartsWith as bs

/-- Does `needle` occur as a contiguous run of `haystack`? -/
def listHasRun (needle : List Char) : List Char → Bool
  | [] => listStartsWith needle []
  | b :: bs => listStartsWith needle (b :: bs) || listHasRun needle bs

/-- Python `sub in s` for strings: substring containment. -/
def strContainsSub (needle haystack : String) : Bool :=
  listHasRun needle.toList haystack.toList

/-! ### `api.py` constants (`const.py`) -/

def TFL_API_BASE : String := "https://api.tfl.gov.uk"

def DARWIN_API_BASE : String :=
  "https://api1.raildata.org.uk/1010-live-departure-board-dep1_2/LDBWS/api/20220120"

def HUXLEY_API_BASE : String := "https://huxley2.azurewebsites.net"

def DEFAULT_UPDATE_INTERVAL : Nat := 120

/-! ### `TflApiClient` -/

/-- `TflApiClient._build_url`: append `app_key` as a query parameter when a
(truthy) key is configured, choosing `&` if the URL already has a query
string and `?` otherwise. -/
def TflApiClient.build_url (app_key : Option String) (endpoint : String) : String :=
  let url := TFL_API_BASE ++ "/" ++ endpoint
  if optStrTruthy app_key then
    let separator := if strContainsSub "?" url then "&" else "?"
    url ++ separator ++ "app_key=" ++ app_key.getD ""
  else url

/-- `TflApiClient.get_line_status` response handling: a 200 body is
returned as parsed; any raised exception or non-200 status yields `[]`. -/
def TflApiClient.get_line_status (http : HttpResult) : Json :=
  match http with
  | .fail _ => .arr []
  | .resp status body =>
    if status = 200 then
      match body with
      | .ok j => j
      | .error _ => .arr []
    else .arr []

/-- The sort key `x.get("expectedArrival", "")` used by
`get_stop_arrivals`.  `some` when the Python expression yields a string
usable in the sort: the element is a dict whose `expectedArrival` value is
a string, or is absent (defaulting to `""`).  `none` marks elements for
which Python's `sorted` call raises (a non-dict element, on which `.get`
raises, or a non-string key value mixed into the string comparison); that
exception is caught by the surrounding `except` and the method returns
`[]`. -/
def expectedArrivalKey (x : Json) : Option String :=
  match x with
  | .obj fs =>
    match dictGet fs "expectedArrival" with
    | none => some ""
    | some (.str s) => some s
    | some _ => none
  | _ => none

/-- The sort key, defaulted, for elements that have one. -/
def keyOrEmpty (x : Json) : String := (expectedArrivalKey x).getD ""

/-- The comparison used by `sorted(data, key=lambda x: x.get("expectedArrival", ""))`. -/
def arrivalLe (a b : Json) : Prop := keyOrEmpty a ≤ keyOrEmpty b

instance : DecidableRel arrivalLe := fun a b =>
  inferInstanceAs (Decidable (keyOrEmpty a ≤ keyOrEmpty b))

instance : IsTotal Json arrivalLe := ⟨fun a b => le_total (keyOrEmpty a) (keyOrEmpty b)⟩

instance : IsTrans Json arrivalLe := ⟨fun _ _ _ h1 h2 => le_trans h1 h2⟩

/-- `TflApiClient.get_stop_arrivals`: a 200 list body is returned sorted
ascending by the `expectedArrival` string (Python's `sorted` is a stable
sort, as is `List.insertionSort`, so the results agree); any raised
exception — transport error, non-200, malformed body, or a `sorted` call
that raises on an ill-shaped element — yields `[]`. -/
def TflApiClient.get_stop_arrivals (http : HttpResult) : Json :=
  match http with
  | .fail _ => .arr []
  | .resp status body =>
    if status = 200 then
      match body with
      | .ok (.arr xs) =>
        if xs.all (fun x => (expectedArrivalKey x).isSome) then
          .arr (List.insertionSort arrivalLe xs)
        else .arr []
      | .ok _ => .arr []
      | .error _ => .arr []
    else .arr []

/-- `TflApiClient.get_station_info`: a 200 body as parsed, `{}` on any
failure. -/
def TflApiClient.get_station_info (http : HttpResult) : Json :=
  match http with
  | .fail _ => .obj []
  | .resp status body =>
    if status = 200 then
      match body with
      | .ok j => j
      | .error _ => .obj []
    else .obj []

/-- `TflApiClient.get_disruptions`: a 200 body as parsed, `[]` on any
failure. -/
def TflApiClient.get_disruptions (http : HttpResult) : Json :=
  match http with
  | .fail _ => .arr []
  | .resp status body =>
    if status = 200 then
      match body with
      | .ok j => j
      | .error _ => .arr []
    else .arr []

/-! ### `DarwinApiClient` -/

/-- The headers `DarwinApiClient.get_departures`/`get_arrivals` attach: the
API key always travels as the `x-apikey` header (a Darwin client is only
ever constructed with a key). -/
def DarwinApiClient.request_headers (api_key : String) : List (String × String) :=
  [("x-apikey", api_key), ("User-Agent", "HomeAssistantTfLIntegration/1.0")]

/-- `DarwinApiClient.get_departures` response handling: a 200 body as
parsed, `{}` on any raised exception or non-200 status. -/
def DarwinApiClient.get_departures (http : HttpResult) : Json :=
  match http with
  | .fail _ => .obj []
  | .resp status body =>
    if status = 200 then
      match body with
      | .ok j => j
      | .error _ => .obj []
    else .obj []

/-- `DarwinApiClient.get_arrivals` response handling, identical in shape to
`get_departures`. -/
def DarwinApiClient.get_arrivals (http : HttpResult) : Json :=
  match http with
  | .fail _ => .obj []
  | .resp status body =>
    if status = 200 then
      match body with
      | .ok j => j
      | .error _ => .obj []
    else .obj []

/-! ### `HuxleyApiClient` -/

/-- The query parameters built by `HuxleyApiClient.get_departures` /
`get_arrivals` / `get_all`: `accessToken` is appended only when a (truthy)
API key is configured; `str(expand).lower()` renders the boolean. -/
def HuxleyApiClient.request_params (api_key : Option String)
    (time_offset time_window : Int) (expand : Bool) : List (String × String) :=
  let params := [("timeOffset", toString time_offset),
                 ("timeWindow", toString time_window),
                 ("expand", if expand then "true" else "false")]
  if optStrTruthy api_key then params ++ [("accessToken", api_key.getD "")] else params

/-- `HuxleyApiClient.get_departures` response handling: a 200 body as
parsed, `{}` on any failure. -/
def HuxleyApiClient.get_departures (http : HttpResult) : Json :=
  match http with
  | .fail _ => .obj []
  | .resp status body =>
    if status = 200 then
      match body with
      | .ok j => j
      | .error _ => .obj []
    else .obj []

/-- `HuxleyApiClient.get_arrivals` response handling: a 200 body as parsed
(and, notably, returned unmodified — no sorting), `{}` on any failure. -/
def HuxleyApiClient.get_arrivals (http : HttpResult) : Json :=
  match http with
  | .fail _ => .obj []
  | .resp status body =>
    if status = 200 then
      match body with
      | .ok j => j
      | .error _ => .obj []
    else .obj []

/-- `HuxleyApiClient.get_all` response handling: a 200 body as parsed, `{}`
on any failure. -/
def HuxleyApiClient.get_all (http : HttpResult) : Json :=
  match http with
  | .fail _ => .obj []
  | .resp status body =>
    if status = 200 then
      match body with
      | .ok j => j
      | .error _ => .obj []
    else .obj []

/-- `HuxleyApiClient.get_station_crs` response handling: a 200 body as
parsed, `[]` on any failure. -/
def HuxleyApiClient.get_station_crs (http : HttpResult) : Json :=
  match http with
  | .fail _ => .arr []
  | .resp status body =>
    if status = 200 then
      match body with
      | .ok j => j
      | .error _ => .arr []
    else .arr []

/-! ### `TrainApiClient` (unified Darwin-then-Huxley client) -/

/-- The parameters of one departures/arrivals request (the spec's
`FeedRequest`), exactly the arguments `TrainApiClient.get_departures` /
`get_arrivals` forward to the provider clients. -/
structure TrainRequest where
  station_crs : String
  num_rows : Int
  filter_crs : Option String
  filter_type : String
  time_offset : Int
  time_window : Int

/-- The observable behaviour of one rail provider client object as used by
`TrainApiClient`: each call either returns a JSON value or raises
(`Except.error`).  The unified client treats the provider clients as black
boxes; in particular it guards the primary call defensively with
`try`/`except` even though the provider clients catch their own HTTP
failures. -/
structure RailClientBehavior where
  departures : TrainRequest → Except String Json
  arrivals : TrainRequest → Except String Json

/-- The state of a `TrainApiClient`: `darwin_client` is `none` exactly when
no Darwin API key was supplied to `__init__`; the Huxley client always
exists; `_last_source` records which API served the last successful
request. -/
structure TrainApiClient where
  darwin_client : Option RailClientBehavior
  huxley_client : RailClientBehavior
  last_source : Option String

/-- `TrainApiClient.__init__`: the Darwin client is constructed only when a
(truthy) `darwin_api_key` was supplied; `_last_source` starts as `None`. -/
def TrainApiClient.init (darwin_api_key : Option String)
    (darwin huxley : RailClientBehavior) : TrainApiClient :=
  { darwin_client := if optStrTruthy darwin_api_key then some darwin else none,
    huxley_client := huxley,
    last_source := none }

/-- Instrumentation for one unified-client call: how many times each
provider client was invoked, so that "the secondary is never / exactly
once invoked" is a statement about the model rather than about logs. -/
structure CallCounts where
  darwin : Nat
  huxley : Nat

/-- The shared fall-back tail of `TrainApiClient.get_departures`: call the
Huxley client with the same request, set `_last_source = "huxley"` only
when the result is truthy, and return the result.  This code is not inside
a `try`, so an exception raised by the Huxley call propagates. -/
def TrainApiClient.huxley_departures_fallback (c : TrainApiClient)
    (req : TrainRequest) (darwin_calls : Nat) :
    Except String (Json × TrainApiClient × CallCounts) :=
  match c.huxley_client.departures req with
  | .error e => .error e
  | .ok result =>
    if result.truthy then
      .ok (result, { c with last_source := some "huxley" }, ⟨darwin_calls, 1⟩)
    else
      .ok (result, c, ⟨darwin_calls, 1⟩)

/-- `TrainApiClient.get_departures`: when a Darwin client exists, try it
first inside `try`/`except`; a truthy result is returned immediately with
`_last_source = "darwin"`; an empty result or a raised exception falls
through to the Huxley tail. -/
def TrainApiClient.get_departures (c : TrainApiClient) (req : TrainRequest) :
    Except String (Json × TrainApiClient × CallCounts) :=
  match c.darwin_client with
  | some d =>
    match d.departures req with
    | .ok result =>
      if result.truthy then
        .ok (result, { c with last_source := some "darwin" }, ⟨1, 0⟩)
      else
        c.huxley_departures_fallback req 1
    | .error _ => c.huxley_departures_fallback req 1
  | none => c.huxley_departures_fallback req 0

/-- The shared fall-back tail of `TrainApiClient.get_arrivals`, identical
in shape to the departures tail. -/
def TrainApiClient.huxley_arrivals_fallback (c : TrainApiClient)
    (req : TrainRequest) (darwin_calls : Nat) :
    Except String (Json × TrainApiClient × CallCounts) :=
  match c.huxley_client.arrivals req with
  | .error e => .error e
  | .ok result =>
    if result.truthy then
      .ok (result, { c with last_source := some "huxley" }, ⟨darwin_calls, 1⟩)
    else
      .ok (result, c, ⟨darwin_calls, 1⟩)

/-- `TrainApiClient.get_arrivals`: same fallback chain as
`get_departures`, over the arrivals operations. -/
def TrainApiClient.get_arrivals (c : TrainApiClient) (req : TrainRequest) :
    Except String (Json × TrainApiClient × CallCounts) :=
  match c.darwin_client with
  | some d =>
    match d.arrivals req with
    | .ok result =>
      if result.truthy then
        .ok (result, { c with last_source := some "darwin" }, ⟨1, 0⟩)
      else
        c.huxley_arrivals_fallback req 1
    | .error _ => c.huxley_arrivals_fallback req 1
  | none => c.huxley_arrivals_fallback req 0

/-! ### Coordinators (`sensor.py`) -/

/-- The fields `TrainDepartureCoordinator.__init__` stores, plus the
display name and update interval it passes to the framework
(`update_interval=timedelta(seconds=DEFAULT_UPDATE_INTERVAL)`). -/
structure TrainDepartureCoordinator where
  station_crs : String
  num_departures : Int
  time_window : Int
  filter_crs : Option String
  filter_type : String
  name : String
  update_interval_seconds : Nat

/-- `TrainDepartureCoordinator.__init__`. -/
def TrainDepartureCoordinator.init (station_crs : String) (num_departures : Int)
    (time_window : Int) (filter_crs : Option String) (filter_type : String) :
    TrainDepartureCoordinator :=
  let base := "Train Departures " ++ station_crs
  { station_crs := station_crs,
    num_departures := num_departures,
    time_window := time_window,
    filter_crs := filter_crs,
    filter_type := filter_type,
    name := if optStrTruthy filter_crs then base ++ " to " ++ filter_crs.getD "" else base,
    update_interval_seconds := DEFAULT_UPDATE_INTERVAL }

/-- `TrainArrivalCoordinator.__init__` stored fields and interval. -/
structure TrainArrivalCoordinator where
  station_crs : String
  num_arrivals : Int
  time_window : Int
  filter_crs : Option String
  filter_type : String
  name : String
  update_interval_seconds : Nat

/-- `TrainArrivalCoordinator.__init__`. -/
def TrainArrivalCoordinator.init (station_crs : String) (num_arrivals : Int)
    (time_window : Int) (filter_crs : Option String) (filter_type : String) :
    TrainArrivalCoordinator :=
  { station_crs := station_crs,
    num_arrivals := num_arrivals,
    time_window := time_window,
    filter_crs := filter_crs,
    filter_type := filter_type,
    name := "Train Arrivals " ++ station_crs,
    update_interval_seconds := DEFAULT_UPDATE_INTERVAL }

/-- `LineStatusCoordinator.__init__` stored fields and interval. -/
structure LineStatusCoordinator where
  lines : List String
  name : String
  update_interval_seconds : Nat

/-- `LineStatusCoordinator.__init__` (`update_interval=timedelta(seconds=300)`). -/
def LineStatusCoordinator.init (lines : List String) : LineStatusCoordinator :=
  { lines := lines, name := "Line Status", update_interval_seconds := 300 }

/-- `BusArrivalCoordinator.__init__` stored fields and interval. -/
structure BusArrivalCoordinator where
  stop_id : String
  name : String
  update_interval_seconds : Nat

/-- `BusArrivalCoordinator.__init__` (`update_interval=timedelta(seconds=60)`). -/
def BusArrivalCoordinator.init (stop_id : String) : BusArrivalCoordinator :=
  { stop_id := stop_id,
    name := "Bus Arrivals " ++ stop_id,
    update_interval_seconds := 60 }

/-- `TrainDepartureCoordinator._async_update_data`: build the request from
the stored fields (`time_offset` is left at its default `0`), call the
unified client, and wrap any raised error in `UpdateFailed`.  An empty
(`{}`) result is returned as ordinary data, not as a failure. -/
def TrainDepartureCoordinator.async_update_data (co : TrainDepartureCoordinator)
    (client : TrainApiClient) : Except String (Json × TrainApiClient) :=
  match client.get_departures
      ⟨co.station_crs, co.num_departures, co.filter_crs, co.filter_type, 0, co.time_window⟩ with
  | .ok (d, c2, _) => .ok (d, c2)
  | .error e => .error ("Error fetching train data: " ++ e)

/-- The cached state a Home Assistant `DataUpdateCoordinator` keeps: the
last value returned by `_async_update_data` (`none` before the first
refresh) and the success flag of the most recent refresh.  The coordinator
class itself is an external framework dependency of this repository; its
refresh step is modelled below from its semantics: a value returned by
`_async_update_data` is stored unconditionally as the new `data`, while a
raised `UpdateFailed` leaves `data` untouched and only clears the success
flag. -/
structure CoordinatorData where
  data : Option Json
  last_update_success : Bool

/-- The framework refresh step (see `CoordinatorData`). -/
def coordinatorRefresh (st : CoordinatorData) (fetched : Except String Json) :
    CoordinatorData :=
  match fetched with
  | .ok d => { data := some d, last_update_success := true }
  | .error _ => { st with last_update_success := false }

/-- One scheduled tick of a train-departure coordinator: run
`_async_update_data` against the unified client and apply the framework
refresh step to the cached state. -/
def TrainDepartureCoordinator.tick (co : TrainDepartureCoordinator)
    (client : TrainApiClient) (st : CoordinatorData) :
    CoordinatorData × TrainApiClient :=
  match co.async_update_data client with
  | .ok (d, c2) => (coordinatorRefresh st (.ok d), c2)
  | .error e => (coordinatorRefresh st (.error e), client)

/-! ### Destination fan-out in `async_setup_entry` -/

/-- The body of `for dest_crs in destinations[:5]` in `async_setup_entry`:
one destination-filtered departure coordinator per listed destination, in
order. -/
def setupDestinationLoop (station_crs : String) (num_departures : Int)
    (time_window : Int) : List String → List TrainDepartureCoordinator
  | [] => []
  | dest_crs :: rest =>
    TrainDepartureCoordinator.init station_crs num_departures time_window
        (some dest_crs) "to"
      :: setupDestinationLoop station_crs num_departures time_window rest

/-- The destination-filtered coordinators `async_setup_entry` creates: the
loop above runs over the Python slice `destinations[:5]` (the first five
entries). -/
def async_setup_entry_destinations (station_crs : String) (num_departures : Int)
    (time_window : Int) (destinations : List String) :
    List TrainDepartureCoordinator :=
  setupDestinationLoop station_crs num_departures time_window (destinations.take 5)

/-! ### `DLRDepartureSensor` (`sensor.py`) -/

/-- Python `s.lower()`. -/
def pyLower (s : String) : String := String.mk (s.toList.map Char.toLower)

/-- Models
`datetime.fromisoformat(s.replace("Z", "+00:00")).strftime("%H:%M")`
together with its `except (ValueError, AttributeError)` handler: for a
well-formed ISO-8601 timestamp `YYYY-MM-DDTHH:MM...` the formatted result
is the `HH:MM` slice at character positions 11–15; a non-string value
(AttributeError on `.replace`) or an unparseable string yields
`"Unknown"`.  Well-formedness is approximated by a length/shape check; no
settled claim depends on the exact parse boundary. -/
def formatExpectedTime (j : Json) : String :=
  match j with
  | .str s =>
    let cs := s.toList
    if 16 ≤ cs.length && cs.getD 10 ' ' = 'T' then
      String.mk ((cs.drop 11).take 5)
    else "Unknown"
  | _ => "Unknown"

/-- One processed departure record as built inside
`DLRDepartureSensor.async_update` (a Python dict with fixed keys).
Values that the code stores without inspecting are kept as `Json`. -/
structure DLRDeparture where
  destination : Json
  platform : Json
  expected_arrival : Option Json
  time_to_station : Int
  current_location : Json
  direction : Json
  line_name : Json
  towards : Json
  minutes_until : Int
  expected_time : String

/-- The outcome of the loop body of `async_update` for one arrival
element: the element raised an exception (escaping to the outer
`except`), was skipped by the destination filter (`continue`), or was
processed into a departure record. -/
inductive ProcessOutcome where
  | raised : ProcessOutcome
  | skipped : ProcessOutcome
  | kept : DLRDeparture → ProcessOutcome

/-- The loop body of `DLRDepartureSensor.async_update` for one arrival:
apply the case-insensitive substring destination filter
(`self._destination_filter.lower() not in dest_name.lower()`), then build
the departure record; `minutes_until` is `max(0, time_to_station // 60)`
with Python floor division.  `raised` covers a non-dict element (`.get`
raises), a non-string `destinationName` met by the filter (`.lower()`
raises), and a non-integer `timeToStation` (`//` raises). -/
def DLRDepartureSensor.process_arrival (dest_filter : Option String)
    (arrival : Json) : ProcessOutcome :=
  match arrival with
  | .obj fs =>
    let destOk : Option Bool :=
      if optStrTruthy dest_filter then
        match dictGetD fs "destinationName" (.str "") with
        | .str dest_name =>
          some (strContainsSub (pyLower (dest_filter.getD "")) (pyLower dest_name))
        | _ => none
      else some true
    match destOk with
    | none => .raised
    | some false => .skipped
    | some true =>
      match dictGetD fs "timeToStation" (.num 0) with
      | .num t =>
        let expected_arrival := dictGet fs "expectedArrival"
        .kept
          { destination := dictGetD fs "destinationName" (.str "Unknown"),
            platform := dictGetD fs "platformName" (.str ""),
            expected_arrival := expected_arrival,
            time_to_station := t,
            current_location := dictGetD fs "currentLocation" (.str ""),
            direction := dictGetD fs "direction" (.str ""),
            line_name := dictGetD fs "lineName" (.str "DLR"),
            towards := dictGetD fs "towards" (.str ""),
            minutes_until := max 0 (Int.fdiv t 60),
            expected_time :=
              match expected_arrival with
              | some v => if v.truthy then formatExpectedTime v else "Unknown"
              | none => "Unknown" }
      | _ => .raised
  | _ => .raised

/-- The processing loop of `async_update` over all arrivals: `none` when
some iteration raised (the exception escapes to the outer `except`),
otherwise the processed records in order. -/
def DLRDepartureSensor.process_arrivals (dest_filter : Option String) :
    List Json → Option (List DLRDeparture)
  | [] => some []
  | a :: rest =>
    match DLRDepartureSensor.process_arrival dest_filter a with
    | .raised => none
    | .skipped => DLRDepartureSensor.process_arrivals dest_filter rest
    | .kept d =>
      (DLRDepartureSensor.process_arrivals dest_filter rest).map (fun l => d :: l)

/-- The sort key of `processed_departures.sort(key=lambda x: x["time_to_station"])`. -/
def dlrLe (a b : DLRDeparture) : Prop := a.time_to_station ≤ b.time_to_station

instance : DecidableRel dlrLe := fun a b =>
  inferInstanceAs (Decidable (a.time_to_station ≤ b.time_to_station))

/-- The mutable state of a `DLRDepartureSensor`: `self._departures` and
`self._last_update`.  The sensor's `state` property is
`len(self._departures)`. -/
structure DLRSensorState where
  departures : List DLRDeparture
  last_update : Option String

/-- `DLRDepartureSensor.state`: the number of cached departures. -/
def DLRDepartureSensor.state (st : DLRSensorState) : Nat := st.departures.length

/-- `DLRDepartureSensor.async_update`, parameterised over the outcome of
the `get_dlr_arrivals` call (`fetched`) and the wall-clock timestamp
string `now` (`datetime.now().isoformat()`).  An exception raised
anywhere inside the `try` — by the fetch itself or while processing the
response — lands in the `except` handler, which clears the cached
departures (and leaves `last_update` alone).  An empty fetch result also
clears the cache and returns early.  Otherwise the processed records are
sorted by `time_to_station` and truncated to ten. -/
def DLRDepartureSensor.async_update (dest_filter : Option String)
    (st : DLRSensorState) (fetched : Except String Json) (now : String) :
    DLRSensorState :=
  match fetched with
  | .error _ => { st with departures := [] }
  | .ok arrivals =>
    if arrivals.truthy = false then { st with departures := [] }
    else
      match arrivals with
      | .arr xs =>
        match DLRDepartureSensor.process_arrivals dest_filter xs with
        | none => { st with departures := [] }
        | some ds =>
          { departures := (List.insertionSort dlrLe ds).take 10,
            last_update := some now }
      | _ => { st with departures := [] }

/-! ### Concrete instances used by witnesses and counterexamples -/

/-- A departures/arrivals request with the repository's defaults. -/
def sampleRequest : TrainRequest := ⟨"GRP", 10, none, "to", 0, 120⟩

/-- A non-empty (truthy) departure-board payload. -/
def nonEmptyBoard : Json := .obj [("trainServices", .arr [])]

/-- A provider behaviour that answers every request with `nonEmptyBoard`. -/
def goodBehavior : RailClientBehavior :=
  ⟨fun _ => .ok nonEmptyBoard, fun _ => .ok nonEmptyBoard⟩

/-- A provider behaviour that answers every request with `{}` (Empty). -/
def emptyBehavior : RailClientBehavior :=
  ⟨fun _ => .ok (.obj []), fun _ => .ok (.obj [])⟩

/-- A provider behaviour that raises on every request. -/
def throwingBehavior : RailClientBehavior :=
  ⟨fun _ => .error "connection reset", fun _ => .error "connection reset"⟩

/-- A unified client whose Darwin provider succeeds. -/
def goodClient : TrainApiClient := ⟨some goodBehavior, emptyBehavior, none⟩

/-- A unified client whose previous request was served by Darwin
(`_last_source = "darwin"`) and whose providers now both return Empty. -/
def staleClient : TrainApiClient := ⟨some emptyBehavior, emptyBehavior, some "darwin"⟩

/-- A unified client with no Darwin key configured and a succeeding
Huxley provider. -/
def noDarwinClient : TrainApiClient := ⟨none, goodBehavior, none⟩

/-- A unified client whose Darwin call raises and whose Huxley provider
succeeds. -/
def throwingDarwinClient : TrainApiClient := ⟨some throwingBehavior, goodBehavior, none⟩

/-- A unified client with no Darwin key whose Huxley provider
deterministically returns Empty. -/
def emptyHuxleyClient : TrainApiClient := ⟨none, emptyBehavior, none⟩

/-- A unified client with no Darwin key whose Huxley call raises. -/
def failingHuxleyClient : TrainApiClient := ⟨none, throwingBehavior, none⟩

/-- The main (unfiltered) departures coordinator for station GRP. -/
def mainDepCoordinator : TrainDepartureCoordinator :=
  TrainDepartureCoordinator.init "GRP" 10 120 none "to"

/-- A non-empty last-good snapshot. -/
def goodSnapshot : Json := .obj [("trainServices", .arr [.obj []])]

/-- A stop arrival expected at 10:00. -/
def lateArrival : Json := .obj [("expectedArrival", .str "2025-01-01T10:00:00Z")]

/-- A stop arrival expected at 09:00. -/
def earlyArrival : Json := .obj [("expectedArrival", .str "2025-01-01T09:00:00Z")]

/-! ### Theorems -/

/-- Claim C1: for every departures or arrivals request, if the primary
(Darwin) client is configured and its call returns a non-empty (truthy)
payload, `TrainApiClient.get_departures` / `get_arrivals` returns exactly
that payload, sets `last_source` to `"darwin"`, and never invokes the
secondary (Huxley) client — its call count in the result is `0`. -/
theorem claim1_darwin_primary_short_circuits (c : TrainApiClient)
    (req : TrainRequest) (d : RailClientBehavior) (payload : Json)
    (hconf : c.darwin_client = some d) :
    (d.departures req = .ok payload → payload.truthy = true →
      c.get_departures req =
        .ok (payload, { c with last_source := some "darwin" }, ⟨1, 0⟩)) ∧
    (d.arrivals req = .ok payload → payload.truthy = true →
      c.get_arrivals req =
        .ok (payload, { c with last_source := some "darwin" }, ⟨1, 0⟩)) := by
  constructor <;> intro hres htr <;>
    simp [TrainApiClient.get_departures, TrainApiClient.get_arrivals, hconf, hres, htr]

/-- Witness for C1 at a concrete client and request. -/
theorem claim1_witness :
    goodClient.darwin_client = some goodBehavior ∧
    goodClient.get_departures sampleRequest =
      .ok (nonEmptyBoard, { goodClient with last_source := some "darwin" }, ⟨1, 0⟩) ∧
    goodClient.get_arrivals sampleRequest =
      .ok (nonEmptyBoard, { goodClient with last_source := some "darwin" }, ⟨1, 0⟩) :=
  ⟨rfl,
   (claim1_darwin_primary_short_circuits goodClient sampleRequest goodBehavior
      nonEmptyBoard rfl).1 rfl rfl,
   (claim1_darwin_primary_short_circuits goodClient sampleRequest goodBehavior
      nonEmptyBoard rfl).2 rfl rfl⟩

/-- Claim C3, counterexample: the claim demands `last_source` be set to
none when the fallback result is Empty, but the code leaves it unchanged.
For a client whose previous request was served by Darwin
(`_last_source = "darwin"`) and whose providers now both return `{}`, the
Empty fallback result is returned with the client state unchanged, so
`last_source` is still `"darwin"`, not `none`. -/
theorem claim3_counterexample :
    staleClient.get_departures sampleRequest = .ok (.obj [], staleClient, ⟨1, 1⟩) ∧
    staleClient.last_source = some "darwin" ∧
    some "darwin" ≠ (none : Option String) :=
  ⟨rfl, rfl, by simp⟩

/-- Claim C3 as amended: when the primary is unconfigured, returns Empty,
or throws, the secondary (Huxley) client is invoked exactly once with the
same request, and its result is returned with `last_source` set to
`"huxley"` on a truthy result; on an Empty result `last_source` is left
unchanged (its initial value is `none`). -/
theorem claim3_amended_fallback (c : TrainApiClient) (req : TrainRequest) :
    ((c.darwin_client = none ∨
        ∃ d, c.darwin_client = some d ∧
          ((∃ r0, d.departures req = .ok r0 ∧ r0.truthy = false) ∨
            ∃ e, d.departures req = .error e)) →
      ∀ r, c.huxley_client.departures req = .ok r →
        ∃ n, c.get_departures req =
          .ok (r, if r.truthy then { c with last_source := some "huxley" } else c,
            ⟨n, 1⟩)) ∧
    ((c.darwin_client = none ∨
        ∃ d, c.darwin_client = some d ∧
          ((∃ r0, d.arrivals req = .ok r0 ∧ r0.truthy = false) ∨
            ∃ e, d.arrivals req = .error e)) →
      ∀ r, c.huxley_client.arrivals req = .ok r →
        ∃ n, c.get_arrivals req =
          .ok (r, if r.truthy then { c with last_source := some "huxley" } else c,
            ⟨n, 1⟩)) := by
  constructor
  · rintro (hnone | ⟨d, hconf, ⟨r0, hr0, hfalse⟩ | ⟨e, herr⟩⟩) r hr
    · exact ⟨0, by by_cases ht : r.truthy <;>
        simp [TrainApiClient.get_departures, TrainApiClient.huxley_departures_fallback,
          hnone, hr, ht]⟩
    · exact ⟨1, by by_cases ht : r.truthy <;>
        simp [TrainApiClient.get_departures, TrainApiClient.huxley_departures_fallback,
          hconf, hr0, hfalse, hr, ht]⟩
    · exact ⟨1, by by_cases ht : r.truthy <;>
        simp [TrainApiClient.get_departures, TrainApiClient.huxley_departures_fallback,
          hconf, herr, hr, ht]⟩
  · rintro (hnone | ⟨d, hconf, ⟨r0, hr0, hfalse⟩ | ⟨e, herr⟩⟩) r hr
    · exact ⟨0, by by_cases ht : r.truthy <;>
        simp [TrainApiClient.get_arrivals, TrainApiClient.huxley_arrivals_fallback,
          hnone, hr, ht]⟩
    · exact ⟨1, by by_cases ht : r.truthy <;>
        simp [TrainApiClient.get_arrivals, TrainApiClient.huxley_arrivals_fallback,
          hconf, hr0, hfalse, hr, ht]⟩
    · exact ⟨1, by by_cases ht : r.truthy <;>
        simp [TrainApiClient.get_arrivals, TrainApiClient.huxley_arrivals_fallback,
          hconf, herr, hr, ht]⟩

/-- Witness for the amended C3: no Darwin key configured, Huxley succeeds. -/
theorem claim3_amended_witness :
    noDarwinClient.darwin_client = none ∧
    ∃ n, noDarwinClient.get_departures sampleRequest =
      .ok (nonEmptyBoard,
        if nonEmptyBoard.truthy then { noDarwinClient with last_source := some "huxley" }
        else noDarwinClient, ⟨n, 1⟩) :=
  ⟨rfl, (claim3_amended_fallback noDarwinClient sampleRequest).1 (Or.inl rfl)
    nonEmptyBoard rfl⟩

/-- Claim C4: an exception raised by the primary (Darwin) client call is
caught inside `TrainApiClient` and never propagated: the unified call is
exactly the Huxley fallback tail (so control proceeds to the secondary
call), and when the Huxley client returns a value the overall call
succeeds, with the Huxley client invoked exactly once. -/
theorem claim4_primary_exception_caught (c : TrainApiClient)
    (req : TrainRequest) (d : RailClientBehavior) (e : String)
    (hconf : c.darwin_client = some d) :
    (d.departures req = .error e →
      c.get_departures req = c.huxley_departures_fallback req 1 ∧
      ∀ r, c.huxley_client.departures req = .ok r →
        ∃ c2, c.get_departures req = .ok (r, c2, ⟨1, 1⟩)) ∧
    (d.arrivals req = .error e →
      c.get_arrivals req = c.huxley_arrivals_fallback req 1 ∧
      ∀ r, c.huxley_client.arrivals req = .ok r →
        ∃ c2, c.get_arrivals req = .ok (r, c2, ⟨1, 1⟩)) := by
  constructor <;> intro herr
  · refine ⟨by simp [TrainApiClient.get_departures, hconf, herr], ?_⟩
    intro r hr
    by_cases ht : r.truthy
    · exact ⟨{ c with last_source := some "huxley" }, by
        simp [TrainApiClient.get_departures, TrainApiClient.huxley_departures_fallback,
          hconf, herr, hr, ht]⟩
    · exact ⟨c, by
        simp [TrainApiClient.get_departures, TrainApiClient.huxley_departures_fallback,
          hconf, herr, hr, ht]⟩
  · refine ⟨by simp [TrainApiClient.get_arrivals, hconf, herr], ?_⟩
    intro r hr
    by_cases ht : r.truthy
    · exact ⟨{ c with last_source := some "huxley" }, by
        simp [TrainApiClient.get_arrivals, TrainApiClient.huxley_arrivals_fallback,
          hconf, herr, hr, ht]⟩
    · exact ⟨c, by
        simp [TrainApiClient.get_arrivals, TrainApiClient.huxley_arrivals_fallback,
          hconf, herr, hr, ht]⟩

/-- Witness for C4: a Darwin client that raises, a Huxley client that
succeeds. -/
theorem claim4_witness :
    throwingDarwinClient.darwin_client = some throwingBehavior ∧
    throwingBehavior.departures sampleRequest = .error "connection reset" ∧
    throwingDarwinClient.get_departures sampleRequest =
      throwingDarwinClient.huxley_departures_fallback sampleRequest 1 :=
  ⟨rfl, rfl,
   ((claim4_primary_exception_caught throwingDarwinClient sampleRequest
      throwingBehavior "connection reset" rfl).1 rfl).1⟩

/-- Claim C2, counterexample: a fetch yielding an Empty provider result
does overwrite the coordinator's snapshot.  Starting from the cached
non-empty snapshot `goodSnapshot`, one tick against a provider that
deterministically returns `{}` replaces the cached data with `{}`, which
differs from the pre-fetch value. -/
theorem claim2_counterexample :
    (mainDepCoordinator.tick emptyHuxleyClient ⟨some goodSnapshot, true⟩).1.data =
      some (.obj []) ∧
    some (Json.obj []) ≠ some goodSnapshot :=
  ⟨rfl, by simp [goodSnapshot]⟩

/-- Claim C2 as amended: the coordinator stores whatever
`_async_update_data` returns, so an Empty fetch result overwrites the
snapshot with the Empty value; only a fetch that raises (surfaced as
`UpdateFailed`) preserves the previous snapshot; and a repeated identical
fetch against a deterministically-Empty provider leaves the snapshot
unchanged only from the second fetch onward, because it is then already
the Empty value. -/
theorem claim2_amended_empty_overwrites (co : TrainDepartureCoordinator)
    (client : TrainApiClient) (st : CoordinatorData) :
    (∀ d c2, co.async_update_data client = .ok (d, c2) →
      (co.tick client st).1 = ⟨some d, true⟩) ∧
    (∀ e, co.async_update_data client = .error e →
      (co.tick client st).1 = ⟨st.data, false⟩) ∧
    (∀ d, co.async_update_data client = .ok (d, client) →
      co.tick client (co.tick client st).1 = co.tick client st) := by
  refine ⟨?_, ?_, ?_⟩
  · intro d c2 h
    simp [TrainDepartureCoordinator.tick, h, coordinatorRefresh]
  · intro e h
    simp [TrainDepartureCoordinator.tick, h, coordinatorRefresh]
  · intro d h
    simp [TrainDepartureCoordinator.tick, h, coordinatorRefresh]

/-- Witness for the amended C2: overwriting, preservation and idempotence
at concrete coordinators and clients. -/
theorem claim2_amended_witness :
    mainDepCoordinator.async_update_data emptyHuxleyClient =
      .ok (.obj [], emptyHuxleyClient) ∧
    (mainDepCoordinator.tick emptyHuxleyClient ⟨some goodSnapshot, true⟩).1 =
      ⟨some (.obj []), true⟩ ∧
    (mainDepCoordinator.tick failingHuxleyClient ⟨some goodSnapshot, true⟩).1 =
      ⟨some goodSnapshot, false⟩ ∧
    mainDepCoordinator.tick emptyHuxleyClient
        (mainDepCoordinator.tick emptyHuxleyClient ⟨some goodSnapshot, true⟩).1 =
      mainDepCoordinator.tick emptyHuxleyClient ⟨some goodSnapshot, true⟩ :=
  ⟨rfl,
   (claim2_amended_empty_overwrites mainDepCoordinator emptyHuxleyClient
      ⟨some goodSnapshot, true⟩).1 (.obj []) emptyHuxleyClient rfl,
   (claim2_amended_empty_overwrites mainDepCoordinator failingHuxleyClient
      ⟨some goodSnapshot, true⟩).2.1 ("Error fetching train data: " ++ "connection reset") rfl,
   (claim2_amended_empty_overwrites mainDepCoordinator emptyHuxleyClient
      ⟨some goodSnapshot, true⟩).2.2 (.obj []) rfl⟩

/-- Claim C5: every provider-client operation is a total function of the
HTTP outcome — no exception reaches the caller — and on every erroneous
outcome (a raised transport error, a non-2xx status, or a malformed
response body) it returns its Empty value (`{}` or `[]`). -/
theorem claim5_provider_clients_fold_failures_to_empty (http : HttpResult)
    (herr : (∃ e, http = .fail e) ∨
      (∃ s b, http = .resp s b ∧ s ≠ 200) ∨
      (∃ s p, http = .resp s (.error p))) :
    TflApiClient.get_line_status http = .arr [] ∧
    TflApiClient.get_stop_arrivals http = .arr [] ∧
    TflApiClient.get_station_info http = .obj [] ∧
    TflApiClient.get_disruptions http = .arr [] ∧
    DarwinApiClient.get_departures http = .obj [] ∧
    DarwinApiClient.get_arrivals http = .obj [] ∧
    HuxleyApiClient.get_departures http = .obj [] ∧
    HuxleyApiClient.get_arrivals http = .obj [] ∧
    HuxleyApiClient.get_all http = .obj [] ∧
    HuxleyApiClient.get_station_crs http = .arr [] := by
  rcases herr with ⟨e, rfl⟩ | ⟨s, b, rfl, hs⟩ | ⟨s, p, rfl⟩
  · exact ⟨rfl, rfl, rfl, rfl, rfl, rfl, rfl, rfl, rfl, rfl⟩
  · simp [TflApiClient.get_line_status, TflApiClient.get_stop_arrivals,
      TflApiClient.get_station_info, TflApiClient.get_disruptions,
      DarwinApiClient.get_departures, DarwinApiClient.get_arrivals,
      HuxleyApiClient.get_departures, HuxleyApiClient.get_arrivals,
      HuxleyApiClient.get_all, HuxleyApiClient.get_station_crs, hs]
  · by_cases hs : s = 200 <;>
      simp [TflApiClient.get_line_status, TflApiClient.get_stop_arrivals,
        TflApiClient.get_station_info, TflApiClient.get_disruptions,
        DarwinApiClient.get_departures, DarwinApiClient.get_arrivals,
        HuxleyApiClient.get_departures, HuxleyApiClient.get_arrivals,
        HuxleyApiClient.get_all, HuxleyApiClient.get_station_crs, hs]

/-- Witness for C5 at each kind of erroneous outcome. -/
theorem claim5_witness :
    TflApiClient.get_line_status (.fail "connection timeout") = .arr [] ∧
    DarwinApiClient.get_departures (.resp 503 (.ok (.obj []))) = .obj [] ∧
    HuxleyApiClient.get_arrivals (.resp 200 (.error "invalid JSON")) = .obj [] :=
  ⟨(claim5_provider_clients_fold_failures_to_empty (.fail "connection timeout")
      (Or.inl ⟨_, rfl⟩)).1,
   (claim5_provider_clients_fold_failures_to_empty (.resp 503 (.ok (.obj [])))
      (Or.inr (Or.inl ⟨503, _, rfl, by decide⟩))).2.2.2.2.1,
   (claim5_provider_clients_fold_failures_to_empty (.resp 200 (.error "invalid JSON"))
      (Or.inr (Or.inr ⟨200, _, rfl⟩))).2.2.2.2.2.2.2.1⟩

/-- Claim C6, counterexample: the rail provider clients perform no
sorting.  A 200 response whose body lists the 10:00 arrival before the
09:00 arrival is returned by `HuxleyApiClient.get_arrivals` (and
`DarwinApiClient.get_arrivals`) unmodified, and that list is not ordered
non-decreasing by the expected-arrival timestamp string. -/
theorem claim6_counterexample :
    HuxleyApiClient.get_arrivals (.resp 200 (.ok (.arr [lateArrival, earlyArrival]))) =
      .arr [lateArrival, earlyArrival] ∧
    DarwinApiClient.get_arrivals (.resp 200 (.ok (.arr [lateArrival, earlyArrival]))) =
      .arr [lateArrival, earlyArrival] ∧
    ¬ List.Sorted arrivalLe [lateArrival, earlyArrival] := by
  refine ⟨rfl, rfl, fun h => ?_⟩
  have hle : arrivalLe lateArrival earlyArrival :=
    List.rel_of_sorted_cons h _ (List.mem_singleton.mpr rfl)
  have hstr : keyOrEmpty lateArrival ≤ keyOrEmpty earlyArrival := hle
  rw [String.le_iff_toList_le] at hstr
  exact absurd hstr (by decide)

/-- Claim C6 as amended: only `TflApiClient.get_stop_arrivals` sorts — its
returned list is always ordered non-decreasing by the `expectedArrival`
timestamp string — while the rail provider clients' arrivals operations
return a 200 response body unmodified, with no sorting. -/
theorem claim6_amended_only_stop_arrivals_sorted :
    (∀ http, ∃ ys, TflApiClient.get_stop_arrivals http = .arr ys ∧
      List.Sorted arrivalLe ys) ∧
    (∀ j, DarwinApiClient.get_arrivals (.resp 200 (.ok j)) = j ∧
      HuxleyApiClient.get_arrivals (.resp 200 (.ok j)) = j) := by
  constructor
  · intro http
    match http with
    | .fail e => exact ⟨[], rfl, List.sorted_nil⟩
    | .resp s body =>
      by_cases hs : s = 200
      · subst hs
        match body with
        | .error p => exact ⟨[], rfl, List.sorted_nil⟩
        | .ok j =>
          match j with
          | .arr xs =>
            by_cases hall : xs.all (fun x => (expectedArrivalKey x).isSome) = true
            · exact ⟨List.insertionSort arrivalLe xs,
                by simp [TflApiClient.get_stop_arrivals, hall],
                List.sorted_insertionSort arrivalLe xs⟩
            · exact ⟨[], by simp [TflApiClient.get_stop_arrivals, hall], List.sorted_nil⟩
          | .null => exact ⟨[], rfl, List.sorted_nil⟩
          | .bool b => exact ⟨[], rfl, List.sorted_nil⟩
          | .num n => exact ⟨[], rfl, List.sorted_nil⟩
          | .str st => exact ⟨[], rfl, List.sorted_nil⟩
          | .obj fs => exact ⟨[], rfl, List.sorted_nil⟩
      · exact ⟨[], by simp [TflApiClient.get_stop_arrivals, hs], List.sorted_nil⟩
  · intro j
    exact ⟨by simp [DarwinApiClient.get_arrivals], by simp [HuxleyApiClient.get_arrivals]⟩

/-- Claim C7: the polling intervals are fixed per feed kind, independent
of every constructor parameter: train departure and arrival coordinators
are built with 120 seconds (`DEFAULT_UPDATE_INTERVAL`), line-status
coordinators with 300 seconds, bus-stop coordinators with 60 seconds. -/
theorem claim7_fixed_polling_intervals (station_crs : String) (n tw : Int)
    (f : Option String) (ft : String) (lines : List String) (stop_id : String) :
    (TrainDepartureCoordinator.init station_crs n tw f ft).update_interval_seconds = 120 ∧
    (TrainArrivalCoordinator.init station_crs n tw f ft).update_interval_seconds = 120 ∧
    (LineStatusCoordinator.init lines).update_interval_seconds = 300 ∧
    (BusArrivalCoordinator.init stop_id).update_interval_seconds = 60 ∧
    DEFAULT_UPDATE_INTERVAL = 120 :=
  ⟨rfl, rfl, rfl, rfl, rfl⟩

/-- The destination loop is a map over the destination list. -/
theorem setupDestinationLoop_eq_map (station_crs : String) (n tw : Int) :
    ∀ ds : List String, setupDestinationLoop station_crs n tw ds =
      ds.map (fun d => TrainDepartureCoordinator.init station_crs n tw (some d) "to")
  | [] => rfl
  | d :: rest => by
    simp [setupDestinationLoop, setupDestinationLoop_eq_map station_crs n tw rest]

/-- Claim C8: a configured destination list of length five or more is
truncated: exactly five destination-filtered departure coordinators are
created, one per destination among the first five (in order), and every
created coordinator filters on one of the first five destinations — the
sixth and beyond are never polled. -/
theorem claim8_destinations_truncated_to_five (station_crs : String)
    (n tw : Int) (ds : List String) (h5 : 5 ≤ ds.length) :
    (async_setup_entry_destinations station_crs n tw ds).length = 5 ∧
    async_setup_entry_destinations station_crs n tw ds =
      (ds.take 5).map (fun d =>
        TrainDepartureCoordinator.init station_crs n tw (some d) "to") ∧
    ∀ co ∈ async_setup_entry_destinations station_crs n tw ds,
      ∃ d ∈ ds.take 5,
        co = TrainDepartureCoordinator.init station_crs n tw (some d) "to" := by
  have hmap := setupDestinationLoop_eq_map station_crs n tw (ds.take 5)
  refine ⟨?_, hmap, ?_⟩
  · rw [async_setup_entry_destinations, hmap]
    simp [List.length_take, Nat.min_eq_left h5]
  · intro co hco
    rw [async_setup_entry_destinations, hmap] at hco
    rcases List.mem_map.mp hco with ⟨d, hd, rfl⟩
    exact ⟨d, hd, rfl⟩

/-- Witness for C8 at a six-destination list. -/
theorem claim8_witness :
    5 ≤ (["CHX", "CST", "VIC", "LBG", "WAT", "WAE"] : List String).length ∧
    (async_setup_entry_destinations "GRP" 10 120
      ["CHX", "CST", "VIC", "LBG", "WAT", "WAE"]).length = 5 :=
  ⟨by decide,
   (claim8_destinations_truncated_to_five "GRP" 10 120
      ["CHX", "CST", "VIC", "LBG", "WAT", "WAE"] (by decide)).1⟩

/-- Claim C9: a configured API key is attached as the `x-apikey` header by
the Darwin client, and as a query parameter by the TfL (`app_key`) and
Huxley (`accessToken`) clients; when the key is absent the parameter is
simply omitted and the URL/parameter construction still succeeds. -/
theorem claim9_credential_attachment (endpoint key : String)
    (time_offset time_window : Int) (expand : Bool) :
    (key ≠ "" →
      TflApiClient.build_url (some key) endpoint =
        TflApiClient.build_url none endpoint ++
          (if strContainsSub "?" (TflApiClient.build_url none endpoint) then "&" else "?") ++
          "app_key=" ++ key) ∧
    TflApiClient.build_url none endpoint = TFL_API_BASE ++ "/" ++ endpoint ∧
    ("x-apikey", key) ∈ DarwinApiClient.request_headers key ∧
    (key ≠ "" →
      ("accessToken", key) ∈
        HuxleyApiClient.request_params (some key) time_offset time_window expand) ∧
    (∀ v, ("accessToken", v) ∉
      HuxleyApiClient.request_params none time_offset time_window expand) := by
  refine ⟨?_, rfl, ?_, ?_, ?_⟩
  · intro hk
    simp [TflApiClient.build_url, optStrTruthy, hk]
  · simp [DarwinApiClient.request_headers]
  · intro hk
    simp [HuxleyApiClient.request_params, optStrTruthy, hk]
  · intro v
    simp [HuxleyApiClient.request_params, optStrTruthy]

/-- Witness for C9 at a concrete endpoint and key. -/
theorem claim9_witness :
    ("k" : String) ≠ "" ∧
    TflApiClient.build_url (some "k") "StopPoint/X/Arrivals" =
      TflApiClient.build_url none "StopPoint/X/Arrivals" ++
        (if strContainsSub "?" (TflApiClient.build_url none "StopPoint/X/Arrivals")
          then "&" else "?") ++
        "app_key=" ++ "k" ∧
    ("accessToken", "k") ∈ HuxleyApiClient.request_params (some "k") 0 120 true :=
  ⟨by decide,
   (claim9_credential_attachment "StopPoint/X/Arrivals" "k" 0 120 true).1 (by decide),
   (claim9_credential_attachment "StopPoint/X/Arrivals" "k" 0 120 true).2.2.2.1 (by decide)⟩

/-- Claim C10: any exception during `DLRDepartureSensor.async_update`
clears the cached departures list to empty instead of preserving the
previously fetched departures — the sensor's `state` drops to `0` and
`last_update` is left untouched. -/
theorem claim10_dlr_clears_on_error (dest_filter : Option String)
    (st : DLRSensorState) (e now : String) :
    (DLRDepartureSensor.async_update dest_filter st (.error e) now).departures = [] ∧
    DLRDepartureSensor.state
      (DLRDepartureSensor.async_update dest_filter st (.error e) now) = 0 ∧
    (DLRDepartureSensor.async_update dest_filter st (.error e) now).last_update =
      st.last_update :=
  ⟨rfl, rfl, rfl⟩
